import Mathlib

/-!
# egorm: interceptor pipeline and component bootstrap

A shallow embedding of `egorm/options.go` (the debug, metric and trace
interceptors) and `egorm/container.go` (`WithInterceptor`, `Container.Build`).

Modelling conventions.

* Go code mutates a `*Scope`, a `*Container` and process-wide sinks (logger,
  metrics, tracer, registry).  Here every such mutation is explicit state
  passing: a `Handler` maps a scope and a `World` to the scope and world it
  leaves behind; `Build` returns the container and world it leaves behind.
* Every call into a telemetry sink appends one `Event` to `World.log`, oldest
  first.  The sinks themselves (elog, emetric, etrace, xdebug) are outside the
  repository and are not modelled further.
* `time.Duration` is a signed nanosecond count, modelled as `Int`.
  `time.Now()` reads `World.now`; the inner handler is free to move the clock.
* `logger.Panic` logs and then panics, so the code after it never runs.
* Functions the two files call but do not define (`ParseDSN`, `newComponent`,
  `Ping`, `bindSQL`, `eapp.IsDevelopmentMode`, `fmt.Sprintf("%v", _)`) are the
  fields of `Ext`; every theorem quantifies over them.
-/

namespace Egorm

/-! ## Data model -/

/-- Go `error` values: the gorm sentinel `ErrRecordNotFound`, any other leaf
error, and an error wrapping another one (`fmt.Errorf("...: %w", inner)`). -/
inductive GoError where
  | ErrRecordNotFound
  | other (msg : String)
  | wrap (msg : String) (inner : GoError)
  deriving DecidableEq, Repr

/-- The text `err.Error()` returns. -/
def GoError.Error : GoError → String
  | .ErrRecordNotFound => "record not found"
  | .other msg => msg
  | .wrap msg inner => msg ++ ": " ++ inner.Error

/-- Go `errors.Is(err, target)`: `err` or an error in its unwrap chain equals
`target`. -/
def errorsIs : GoError → GoError → Bool
  | .wrap msg inner, target =>
      decide (GoError.wrap msg inner = target) || errorsIs inner target
  | err, target => decide (err = target)

/-- Values of Go type `interface{}` that the interceptors handle: the scope's
result, the bound SQL parameters and the entries of the scope's key/value
store.  `context id` is a value implementing `context.Context`. -/
inductive GoValue where
  | nil
  | str (s : String)
  | int (n : Int)
  | context (id : Nat)
  deriving DecidableEq, Repr

/-- The identity of an `Interceptor` function value: one of the three built-in
interceptors of `options.go`, or a caller-supplied one. -/
inductive Interceptor where
  | debug
  | trace
  | metric
  | custom (id : Nat)
  deriving DecidableEq, Repr

/-- The fields of `*DSN` the two files read. -/
structure DSN where
  Addr : String
  DBName : String
  deriving DecidableEq, Repr

/-- The fields of `*Config` the two files read or write.  `interceptors` is a
Go slice: `none` is the nil slice. -/
structure Config where
  DSN : String
  Debug : Bool
  EnableTraceInterceptor : Bool
  EnableMetricInterceptor : Bool
  EnableAccessInterceptor : Bool
  EnableAccessInterceptorReq : Bool
  EnableAccessInterceptorReply : Bool
  EnableDetailSQL : Bool
  SlowLogThreshold : Int
  OnFail : String
  interceptors : Option (List Interceptor)
  dsnCfg : Option Egorm.DSN
  deriving DecidableEq, Repr

/-- Structured log fields built by the `elog.Field*` constructors. -/
inductive Field where
  | method (op : String)
  | name (n : String)
  | cost (d : Int)
  | string (key val : String)
  | any (key : String) (v : GoValue)
  | event (e : String)
  | err (e : GoError)
  | errKind (k : String)
  | addr (a : String)
  | valueAny (c : Config)
  deriving DecidableEq, Repr

/-- An `*elog.Component`: the fields bound to it with `With`. -/
structure Logger where
  bound : List Field
  deriving DecidableEq, Repr

/-- The Go call `logger.With(fields...)`. -/
def Logger.With (l : Logger) (fields : List Field) : Logger :=
  { bound := l.bound ++ fields }

/-- Log levels used by the two files. -/
inductive Level where
  | info
  | warn
  | error
  | panic
  deriving DecidableEq, Repr

/-- A `*Component` as far as `Build` handles it: its logical name and the
identity of its connection handle. -/
structure Component where
  name : String
  db : Nat
  deriving DecidableEq, Repr

/-- One call into an external sink. -/
inductive Event where
  | log (lvl : Level) (logger : Logger) (msg : String) (fields : List Field)
  | counterInc (typ name addr code : String)
  | histogramObserve (typ name addr : String) (cost : Int)
  | xdebugError (compName addr : String) (cost : Int) (sql err : String)
  | xdebugInfo (compName addr : String) (cost : Int) (sql reply : String)
  | spanStart (ctx : Nat) (op : String) (tags : List (String × String))
  | spanSetTag (key val : String)
  | spanFinish
  | ping (c : Component)
  deriving DecidableEq, Repr

/-- Process-wide state: the monotonic clock, the calls made into the sinks so
far (oldest first) and the registry `instances` (a `sync.Map`). -/
structure World where
  now : Int
  log : List Event
  instances : List (String × Component)
  deriving DecidableEq, Repr

/-- Append one sink call to the world. -/
def World.emit (w : World) (e : Event) : World :=
  { w with log := w.log ++ [e] }

/-- Append several sink calls to the world, in order. -/
def World.emits (w : World) (es : List Event) : World :=
  { w with log := w.log ++ es }

/-- The state of a gorm `*Scope` the interceptors read.  `Error` is
`scope.DB().Error` (`none` is nil, so `scope.HasError()` is `Error ≠ none`),
`tableName` is what `scope.TableName()`
returns and `values` backs `scope.Get`. -/
structure Scope where
  SQL : String
  SQLVars : List GoValue
  Value : GoValue
  Error : Option GoError
  tableName : String
  values : List (String × GoValue)
  deriving DecidableEq, Repr

/-- The Go call `scope.Get(name)`; `none` is `ok = false`. -/
def Scope.Get (s : Scope) (name : String) : Option GoValue :=
  s.values.lookup name

/-- Go `type Handler func(*Scope)`. -/
abbrev Handler := Scope → World → Scope × World

/-- Functions and globals used by the two files and defined elsewhere. -/
structure Ext where
  IsDevelopmentMode : Bool
  bindSQL : String → List GoValue → String
  sprintV : GoValue → String
  ParseDSN : String → Option DSN × Option GoError
  newComponent : String → Config → Logger → Option Component × Option GoError
  Ping : Component → Option GoError

/-- The constant `emetric.TypeGorm`. -/
def TypeGorm : String := "gorm"

/-! ## options.go -/

/-- Go `logSQL`. -/
def logSQL (ext : Ext) (sql : String) (args : List GoValue) (containArgs : Bool) : String :=
  if containArgs then ext.bindSQL sql args else sql

/-- Go `debugInterceptor`. -/
def debugInterceptor (ext : Ext) (compName : String) (dsn : DSN) (_op : String)
    (_options : Config) (_logger : Logger) (next : Handler) : Handler :=
  fun scope w =>
    let beg := w.now
    let r := next scope w
    let scope := r.1
    let w := r.2
    let cost := w.now - beg
    if ext.IsDevelopmentMode then
      match scope.Error with
      | some e =>
          (scope, w.emit (.xdebugError compName (dsn.Addr ++ "/" ++ dsn.DBName) cost
            (logSQL ext scope.SQL scope.SQLVars true) e.Error))
      | none =>
          (scope, w.emit (.xdebugInfo compName (dsn.Addr ++ "/" ++ dsn.DBName) cost
            (logSQL ext scope.SQL scope.SQLVars true) (ext.sprintV scope.Value)))
    else
      (scope, w)

/-- The body of the handler of Go `metricInterceptor` after `next` has returned
(lines 47 to 95): the sink calls it makes, in order, for the scope left by
`next` and the measured `cost`.  `fields` grows exactly as in the source, so a
later log carries the fields appended for an earlier one. -/
def metricEvents (ext : Ext) (dsn : DSN) (op : String) (config : Config)
    (logger : Logger) (scope : Scope) (cost : Int) : List Event :=
  let fields : List Field :=
    [.method op, .name (dsn.DBName ++ "." ++ scope.tableName), .cost cost]
  let fields :=
    if config.EnableAccessInterceptorReq then
      fields ++ [.string "req" (logSQL ext scope.SQL scope.SQLVars config.EnableDetailSQL)]
    else fields
  let fields :=
    if config.EnableAccessInterceptorReply then fields ++ [.any "reply" scope.Value]
    else fields
  let isErrLog := false
  let isSlowLog := false
  let evs : List Event := []
  -- error metric
  let st : List Field × List Event × Bool :=
    match scope.Error with
    | some e =>
        let fields := fields ++ [Field.event "error", Field.err e]
        let evs :=
          if errorsIs e GoError.ErrRecordNotFound then
            evs ++ [Event.log Level.warn logger "access" fields,
              Event.counterInc TypeGorm (dsn.DBName ++ "." ++ scope.tableName) dsn.Addr "Empty"]
          else
            evs ++ [Event.log Level.error logger "access" fields,
              Event.counterInc TypeGorm (dsn.DBName ++ "." ++ scope.tableName) dsn.Addr "Error"]
        (fields, evs, true)
    | none =>
        (fields,
          evs ++ [Event.counterInc TypeGorm (dsn.DBName ++ "." ++ scope.tableName) dsn.Addr "OK"],
          isErrLog)
  let fields := st.1
  let evs := st.2.1
  let isErrLog := st.2.2
  let evs :=
    evs ++ [Event.histogramObserve TypeGorm (dsn.DBName ++ "." ++ scope.tableName) dsn.Addr cost]
  let st : List Field × List Event :=
    if config.SlowLogThreshold > 0 ∧ config.SlowLogThreshold < cost then
      let fields := fields ++ [Field.event "slow"]
      (fields, evs ++ [Event.log Level.warn logger "access" fields])
    else (fields, evs)
  let fields := st.1
  let evs := st.2
  let evs :=
    if config.EnableAccessInterceptor = true ∧ isSlowLog = false ∧ isErrLog = false then
      let fields := fields ++ [Field.event "normal"]
      evs ++ [Event.log Level.info logger "access" fields]
    else evs
  evs

/-- Go `metricInterceptor`. -/
def metricInterceptor (ext : Ext) (_compName : String) (dsn : DSN) (op : String)
    (config : Config) (logger : Logger) (next : Handler) : Handler :=
  fun scope w =>
    let beg := w.now
    let r := next scope w
    let scope := r.1
    let w := r.2
    let cost := w.now - beg
    (scope, w.emits (metricEvents ext dsn op config logger scope cost))

/-- Go `traceInterceptor`. -/
def traceInterceptor (ext : Ext) (_compName : String) (dsn : DSN) (_op : String)
    (options : Config) (_logger : Logger) (next : Handler) : Handler :=
  fun scope w =>
    match scope.Get "_context" with
    | some (.context ctx) =>
        let w := w.emit (.spanStart ctx "GORM" [("component", "mysql"), ("span.kind", "client")])
        let r := next scope w
        let scope := r.1
        let w := r.2
        let w := w.emits [
          .spanSetTag "sql.inner" dsn.DBName,
          .spanSetTag "sql.addr" dsn.Addr,
          .spanSetTag "span.kind" "client",
          .spanSetTag "peer.service" "mysql",
          .spanSetTag "db.instance" dsn.DBName,
          .spanSetTag "peer.address" dsn.Addr,
          .spanSetTag "peer.statement" (logSQL ext scope.SQL scope.SQLVars options.EnableDetailSQL)]
        -- the deferred span.Finish()
        (scope, w.emit .spanFinish)
    | _ => next scope w

/-! ## container.go -/

/-- Go `type Container struct`. -/
structure Container where
  config : Config
  name : String
  logger : Logger
  deriving DecidableEq, Repr

/-- Go `type Option func(c *Container)`: it may rewrite the container in any
way.  (Named `ContainerOption` because `Option` is taken.) -/
abbrev ContainerOption := Container → Container

/-- Go `WithInterceptor`. -/
def WithInterceptor (is : List Interceptor) : ContainerOption :=
  fun c =>
    let c : Container :=
      if c.config.interceptors = none then
        { c with config := { c.config with interceptors := some [] } }
      else c
    { c with config :=
        { c.config with interceptors := some (c.config.interceptors.getD [] ++ is) } }

/-- Lines 48 to 66 of Go `Container.Build`: the built-in interceptors enabled
by the flags are appended to the caller's options as `WithInterceptor` options
(debug, trace, metric), then every option is applied to the container. -/
def applyOptions (c : Container) (options : List ContainerOption) : Container :=
  let options :=
    if c.config.Debug then options ++ [WithInterceptor [Interceptor.debug]] else options
  let options :=
    if c.config.EnableTraceInterceptor then options ++ [WithInterceptor [Interceptor.trace]]
    else options
  let options :=
    if c.config.EnableMetricInterceptor then options ++ [WithInterceptor [Interceptor.metric]]
    else options
  options.foldl (fun c option => option c) c

/-- The container once lines 73 to 81 of Go `Container.Build` have run with a
parsed DSN: `dsnCfg` is set and the address is bound to the logger. -/
def withDSN (c : Container) (dsn : DSN) : Container :=
  { c with
    config := { c.config with dsnCfg := some dsn }
    logger := c.logger.With [Field.addr dsn.Addr] }

/-- The Go call `instances.Store(name, component)` on the `sync.Map` registry:
the entry for `name` is replaced, the others are kept. -/
def Store (instances : List (String × Component)) (name : String) (component : Component) :
    List (String × Component) :=
  (name, component) :: instances.filter (fun e => e.1 ≠ name)

/-- The Go call `instances.Load(name)`. -/
def Load (instances : List (String × Component)) (name : String) : Option Component :=
  instances.lookup name

/-- How a call of `Build` ends: it returns a `*Component` (`none` is a nil
pointer), or it panics. -/
inductive BuildResult where
  | returned (component : Option Component)
  | panicked (msg : String)
  deriving DecidableEq, Repr

/-- Go `Container.Build`: the result, the container and the world it leaves. -/
def Build (ext : Ext) (c : Container) (options : List ContainerOption) (w : World) :
    BuildResult × Container × World :=
  let c := applyOptions c options
  match ext.ParseDSN c.config.DSN with
  | (dsnCfg, some err) =>
      let c : Container := { c with config := { c.config with dsnCfg := dsnCfg } }
      (BuildResult.panicked "start mysql", c,
        w.emit (Event.log Level.panic c.logger "start mysql" [Field.err err]))
  | (none, none) =>
      -- c.config.dsnCfg.Addr dereferences a nil pointer
      let c : Container := { c with config := { c.config with dsnCfg := none } }
      (BuildResult.panicked "nil pointer dereference", c, w)
  | (some dsn, none) =>
      let w := w.emit (Event.log Level.info c.logger "start mysql"
        [Field.addr dsn.Addr, Field.name dsn.DBName])
      let c := withDSN c dsn
      match ext.newComponent c.name c.config c.logger with
      | (component, some err) =>
          if c.config.OnFail = "panic" then
            (BuildResult.panicked "open mysql", c,
              w.emit (Event.log Level.panic c.logger "open mysql"
                [Field.errKind "register err", Field.err err, Field.addr dsn.Addr,
                  Field.valueAny c.config]))
          else
            let w := w.emit (Event.counterInc TypeGorm (c.name ++ ".ping") dsn.Addr "open err")
            let w := w.emit (Event.log Level.error c.logger "open mysql"
                [Field.errKind "register err", Field.err err, Field.addr dsn.Addr,
                  Field.valueAny c.config])
            (BuildResult.returned component, c, w)
      | (none, none) =>
          -- component.DB() dereferences a nil pointer
          (BuildResult.panicked "nil pointer dereference", c, w)
      | (some component, none) =>
          let w := w.emit (Event.ping component)
          match ext.Ping component with
          | some err =>
              (BuildResult.panicked "ping mysql", c,
                w.emit (Event.log Level.panic c.logger "ping mysql"
                  [Field.errKind "register err", Field.err err, Field.valueAny c.config]))
          | none =>
              -- store db
              (BuildResult.returned (some component), c,
                { w with instances := Store w.instances c.name component })

/-! ## Observations on the sink calls -/

/-- An increment of the outcome counter `emetric.LibHandleCounter`. -/
def Event.isCounterInc : Event → Bool
  | .counterInc _ _ _ _ => true
  | _ => false

/-- A warning-level log carrying the field `event=slow`. -/
def Event.isSlowLog : Event → Bool
  | .log .warn _ _ fields => decide (Field.event "slow" ∈ fields)
  | _ => false

/-- An info-level log carrying the field `event=normal`. -/
def Event.isNormalLog : Event → Bool
  | .log .info _ _ fields => decide (Field.event "normal" ∈ fields)
  | _ => false

/-- A log at any level carrying the field `event=slow`. -/
def Event.hasSlowTag : Event → Bool
  | .log _ _ _ fields => decide (Field.event "slow" ∈ fields)
  | _ => false

/-- The outcome log of the metric interceptor: the log made for a scope with
an error, tagged `event=error` and not yet `event=slow`. -/
def Event.isOutcomeLog : Event → Bool
  | .log _ _ _ fields => decide (Field.event "error" ∈ fields ∧ Field.event "slow" ∉ fields)
  | _ => false

/-- A liveness check. -/
def Event.isPing : Event → Bool
  | .ping _ => true
  | _ => false

/-- The slow-log condition of the metric interceptor. -/
def slowFires (config : Config) (cost : Int) : Prop :=
  config.SlowLogThreshold > 0 ∧ cost > config.SlowLogThreshold

instance (config : Config) (cost : Int) : Decidable (slowFires config cost) := by
  unfold slowFires
  infer_instance

/-- The built-in interceptors enabled by the flags of a configuration, in the
order debug, trace, metric. -/
def enabledBuiltins (config : Config) : List Interceptor :=
  (if config.Debug then [Interceptor.debug] else []) ++
  (if config.EnableTraceInterceptor then [Interceptor.trace] else []) ++
  (if config.EnableMetricInterceptor then [Interceptor.metric] else [])

/-- The interceptor slice of a container as a list (the nil slice is empty). -/
def Container.interceptorList (c : Container) : List Interceptor :=
  c.config.interceptors.getD []

/-- A wrapped handler `h` runs the inner handler `next` exactly once on the
scope it was given: its result is the result of the single application
`next scope _` to a world that differs from the caller's only by sink calls
`pre` made beforehand, the scope is passed through untouched and the only
further change to the world is sink calls `post` made afterwards. -/
def RunsNextOnce (h next : Handler) (scope : Scope) (w : World) : Prop :=
  ∃ pre post : List Event,
    h scope w = ((next scope (w.emits pre)).1, (next scope (w.emits pre)).2.emits post)

/-- The options `Build` appends for the enabled built-in interceptors. -/
def builtinOptions (config : Config) : List ContainerOption :=
  (enabledBuiltins config).map (fun i => WithInterceptor [i])

/-- The container `c` with its interceptor slice replaced. -/
def Container.setInterceptors (c : Container) (is : Option (List Interceptor)) : Container :=
  { c with config := { c.config with interceptors := is } }

/-! ## Concrete inputs -/

/-- External functions for the examples: a DSN parser that accepts every
non-empty string, an open that fails exactly when `openErr` is given and a
liveness check that fails exactly when `pingErr` is given. -/
def exampleExt (openErr pingErr : Option GoError) : Ext where
  IsDevelopmentMode := true
  bindSQL := fun sql _ => sql
  sprintV := fun _ => ""
  ParseDSN := fun s =>
    if s = "" then (none, some (GoError.other "invalid DSN"))
    else (some { Addr := "127.0.0.1:3306", DBName := "orders" }, none)
  newComponent := fun name _ _ => (some { name := name, db := 1 }, openErr)
  Ping := fun _ => pingErr

/-- A configuration with every flag off, no slow threshold and the given
failure policy. -/
def exampleConfig (onFail : String) : Config where
  DSN := "user:pass@tcp(127.0.0.1:3306)/orders?timeout=1s"
  Debug := false
  EnableTraceInterceptor := false
  EnableMetricInterceptor := false
  EnableAccessInterceptor := false
  EnableAccessInterceptorReq := false
  EnableAccessInterceptorReply := false
  EnableDetailSQL := false
  SlowLogThreshold := 0
  OnFail := onFail
  interceptors := none
  dsnCfg := none

/-- A container named `orders` around a configuration. -/
def exampleContainer (config : Config) : Container where
  config := config
  name := "orders"
  logger := { bound := [] }

/-- A world at time zero with no sink calls and an empty registry. -/
def emptyWorld : World where
  now := 0
  log := []
  instances := []

/-- A scope for `SELECT * FROM orders` with the given error state. -/
def exampleScope (err : Option GoError) : Scope where
  SQL := "SELECT * FROM orders"
  SQLVars := []
  Value := GoValue.nil
  Error := err
  tableName := "orders"
  values := []

/-- An inner handler that takes `elapsed` nanoseconds and leaves the scope as
it found it. -/
def sleepHandler (elapsed : Int) : Handler :=
  fun scope w => (scope, { w with now := w.now + elapsed })

/-- The example of the slow path: threshold 200ms, access logging on. -/
def slowConfig : Config :=
  { exampleConfig "panic" with
    EnableMetricInterceptor := true
    EnableAccessInterceptor := true
    SlowLogThreshold := 200000000 }

/-- An inner handler that takes 300ms and fails with a wrapped
`ErrRecordNotFound`. -/
def notFoundHandler : Handler :=
  fun scope w =>
    ({ scope with Error := some (GoError.wrap "find order" GoError.ErrRecordNotFound) },
      { w with now := w.now + 300000000 })

/-- A scope that carries a `context.Context` under `_context`. -/
def contextScope : Scope :=
  { exampleScope none with values := [("_context", GoValue.context 1)] }

/-- The example for the interceptor order: the debug flag is set and the
caller supplies one interceptor. -/
def debugContainer : Container :=
  exampleContainer { exampleConfig "panic" with Debug := true }

/-- The example for repeated builds: the debug and metric flags are set. -/
def debugMetricContainer : Container :=
  exampleContainer { exampleConfig "panic" with Debug := true, EnableMetricInterceptor := true }

/-- A world whose registry already holds an entry for `orders` and one for
`users`. -/
def registeredWorld : World :=
  { emptyWorld with
    instances := [("users", { name := "users", db := 8 }), ("orders", { name := "orders", db := 9 })] }

/-! ## The metric interceptor -/

theorem metricInterceptor_run (ext : Ext) (compName : String) (dsn : DSN) (op : String)
    (config : Config) (logger : Logger) (next : Handler) (scope : Scope) (w : World) :
    metricInterceptor ext compName dsn op config logger next scope w =
      ((next scope w).1, (next scope w).2.emits
        (metricEvents ext dsn op config logger (next scope w).1
          ((next scope w).2.now - w.now))) := rfl

theorem metricEvents_counters (ext : Ext) (dsn : DSN) (op : String) (config : Config)
    (logger : Logger) (scope : Scope) (cost : Int) :
    (metricEvents ext dsn op config logger scope cost).filter Event.isCounterInc =
      [Event.counterInc TypeGorm (dsn.DBName ++ "." ++ scope.tableName) dsn.Addr
        (match scope.Error with
          | some e => if errorsIs e GoError.ErrRecordNotFound then "Empty" else "Error"
          | none => "OK")] := by
  unfold metricEvents
  cases hE : scope.Error with
  | none =>
      by_cases hs : config.SlowLogThreshold > 0 ∧ config.SlowLogThreshold < cost <;>
      by_cases ha : config.EnableAccessInterceptor = true <;>
      simp [hs, ha, List.filter, Event.isCounterInc]
  | some e =>
      by_cases hs : config.SlowLogThreshold > 0 ∧ config.SlowLogThreshold < cost <;>
      by_cases hn : errorsIs e GoError.ErrRecordNotFound = true <;>
      simp [hs, hn, List.filter, Event.isCounterInc]

theorem metricEvents_slowLogs (ext : Ext) (dsn : DSN) (op : String) (config : Config)
    (logger : Logger) (scope : Scope) (cost : Int) :
    ((metricEvents ext dsn op config logger scope cost).filter Event.isSlowLog).length =
      if slowFires config cost then 1 else 0 := by
  unfold metricEvents slowFires
  cases hE : scope.Error with
  | none =>
      by_cases hs : config.SlowLogThreshold > 0 ∧ config.SlowLogThreshold < cost <;>
      by_cases ha : config.EnableAccessInterceptor = true <;>
      by_cases hq : config.EnableAccessInterceptorReq = true <;>
      by_cases hp : config.EnableAccessInterceptorReply = true <;>
      simp [hs, ha, hq, hp, List.filter, Event.isSlowLog]
  | some e =>
      by_cases hs : config.SlowLogThreshold > 0 ∧ config.SlowLogThreshold < cost <;>
      by_cases hn : errorsIs e GoError.ErrRecordNotFound = true <;>
      by_cases hq : config.EnableAccessInterceptorReq = true <;>
      by_cases hp : config.EnableAccessInterceptorReply = true <;>
      simp [hs, hn, hq, hp, List.filter, Event.isSlowLog]

theorem metricEvents_normalLogs (ext : Ext) (dsn : DSN) (op : String) (config : Config)
    (logger : Logger) (scope : Scope) (cost : Int) :
    ((metricEvents ext dsn op config logger scope cost).filter Event.isNormalLog).length =
      if config.EnableAccessInterceptor = true ∧ scope.Error = none then 1 else 0 := by
  unfold metricEvents
  cases hE : scope.Error with
  | none =>
      by_cases hs : config.SlowLogThreshold > 0 ∧ config.SlowLogThreshold < cost <;>
      by_cases ha : config.EnableAccessInterceptor = true <;>
      by_cases hq : config.EnableAccessInterceptorReq = true <;>
      by_cases hp : config.EnableAccessInterceptorReply = true <;>
      simp [hs, ha, hq, hp, List.filter, Event.isNormalLog]
  | some e =>
      by_cases hs : config.SlowLogThreshold > 0 ∧ config.SlowLogThreshold < cost <;>
      by_cases hn : errorsIs e GoError.ErrRecordNotFound = true <;>
      by_cases hq : config.EnableAccessInterceptorReq = true <;>
      by_cases hp : config.EnableAccessInterceptorReply = true <;>
      simp [hs, hn, hq, hp, List.filter, Event.isNormalLog]

theorem metricEvents_no_slowTag (ext : Ext) (dsn : DSN) (op : String) (config : Config)
    (logger : Logger) (scope : Scope) (cost : Int) (hs : ¬ slowFires config cost) :
    (metricEvents ext dsn op config logger scope cost).filter Event.hasSlowTag = [] := by
  unfold slowFires at hs
  have hs2 : ¬ (config.SlowLogThreshold > 0 ∧ config.SlowLogThreshold < cost) := hs
  unfold metricEvents
  cases hE : scope.Error with
  | none =>
      by_cases ha : config.EnableAccessInterceptor = true <;>
      by_cases hq : config.EnableAccessInterceptorReq = true <;>
      by_cases hp : config.EnableAccessInterceptorReply = true <;>
      simp [hs2, ha, hq, hp, List.filter, Event.hasSlowTag]
  | some e =>
      by_cases hn : errorsIs e GoError.ErrRecordNotFound = true <;>
      by_cases hq : config.EnableAccessInterceptorReq = true <;>
      by_cases hp : config.EnableAccessInterceptorReply = true <;>
      simp [hs2, hn, hq, hp, List.filter, Event.hasSlowTag]

theorem metricEvents_outcomeLogs (ext : Ext) (dsn : DSN) (op : String) (config : Config)
    (logger : Logger) (scope : Scope) (cost : Int) :
    ((metricEvents ext dsn op config logger scope cost).filter Event.isOutcomeLog).length =
      if scope.Error.isSome then 1 else 0 := by
  unfold metricEvents
  cases hE : scope.Error with
  | none =>
      by_cases hs : config.SlowLogThreshold > 0 ∧ config.SlowLogThreshold < cost <;>
      by_cases ha : config.EnableAccessInterceptor = true <;>
      by_cases hq : config.EnableAccessInterceptorReq = true <;>
      by_cases hp : config.EnableAccessInterceptorReply = true <;>
      simp [hs, ha, hq, hp, List.filter, Event.isOutcomeLog]
  | some e =>
      by_cases hs : config.SlowLogThreshold > 0 ∧ config.SlowLogThreshold < cost <;>
      by_cases hn : errorsIs e GoError.ErrRecordNotFound = true <;>
      by_cases hq : config.EnableAccessInterceptorReq = true <;>
      by_cases hp : config.EnableAccessInterceptorReply = true <;>
      simp [hs, hn, hq, hp, List.filter, Event.isOutcomeLog]

/-! ## Claims on the metric interceptor -/

/-- C1 (failing input): with a slow threshold of 200ms, access logging enabled,
an operation that takes 250ms and leaves no error, the handler produced by
`metricInterceptor` emits the warning log tagged `event=slow` and also an
info-level log tagged `event=normal`: `isSlowLog` is never set, so the
normal-log branch is not suppressed when the slow log fired. -/
theorem metricInterceptor_normal_log_fires_with_slow_log :
    slowFires slowConfig 250000000 ∧
    (exampleScope none).Error = none ∧
    slowConfig.EnableAccessInterceptor = true ∧
    (metricInterceptor (exampleExt none none) "orders"
        { Addr := "127.0.0.1:3306", DBName := "orders" } "query" slowConfig { bound := [] }
        (sleepHandler 250000000) (exampleScope none) emptyWorld).2.log =
      [Event.counterInc "gorm" "orders.orders" "127.0.0.1:3306" "OK",
       Event.histogramObserve "gorm" "orders.orders" "127.0.0.1:3306" 250000000,
       Event.log Level.warn { bound := [] } "access"
         [Field.method "query", Field.name "orders.orders", Field.cost 250000000,
          Field.event "slow"],
       Event.log Level.info { bound := [] } "access"
         [Field.method "query", Field.name "orders.orders", Field.cost 250000000,
          Field.event "slow", Field.event "normal"]] := by
  refine ⟨by decide, rfl, rfl, ?_⟩
  decide

/-- C3: the handler produced by `metricInterceptor` returns the scope left by
the inner handler and appends its own sink calls `own` to those of the inner
handler; among `own` there is exactly one outcome-counter increment, and its
label is `Empty` iff the scope carries an error that is `ErrRecordNotFound`
under `errors.Is`, `Error` iff it carries any other error, and `OK` iff it
carries no error. -/
theorem metricInterceptor_outcome_counter (ext : Ext) (compName : String) (dsn : DSN)
    (op : String) (config : Config) (logger : Logger) (next : Handler) (scope : Scope)
    (w : World) :
    ∃ (own : List Event) (label : String),
      (metricInterceptor ext compName dsn op config logger next scope w).1 = (next scope w).1 ∧
      (metricInterceptor ext compName dsn op config logger next scope w).2.log =
        (next scope w).2.log ++ own ∧
      own.filter Event.isCounterInc =
        [Event.counterInc TypeGorm (dsn.DBName ++ "." ++ (next scope w).1.tableName)
          dsn.Addr label] ∧
      (label = "Empty" ↔
        ∃ e, (next scope w).1.Error = some e ∧ errorsIs e GoError.ErrRecordNotFound = true) ∧
      (label = "Error" ↔
        ∃ e, (next scope w).1.Error = some e ∧ errorsIs e GoError.ErrRecordNotFound = false) ∧
      (label = "OK" ↔ (next scope w).1.Error = none) := by
  refine ⟨_, _, rfl, rfl, metricEvents_counters ext dsn op config logger _ _, ?_⟩
  cases hE : (next scope w).1.Error with
  | none => simp
  | some e =>
      by_cases hn : errorsIs e GoError.ErrRecordNotFound = true
      · simp [hn]
      · simp [hn]

/-- C4: among the sink calls the handler produced by `metricInterceptor` adds
to those of the inner handler there is exactly one warning-level log tagged
`event=slow` when `SlowLogThreshold > 0` and the elapsed time exceeds it;
otherwise no log at any level is tagged `event=slow`.  This holds whatever
error state the inner handler left in the scope, and the slow log comes in
addition to the outcome: the outcome counter is still incremented once and the
outcome log is still made exactly when the scope carries an error. -/
theorem metricInterceptor_slow_log (ext : Ext) (compName : String) (dsn : DSN)
    (op : String) (config : Config) (logger : Logger) (next : Handler) (scope : Scope)
    (w : World) :
    ∃ own : List Event,
      (metricInterceptor ext compName dsn op config logger next scope w).2.log =
        (next scope w).2.log ++ own ∧
      ((own.filter Event.isSlowLog).length =
        if config.SlowLogThreshold > 0 ∧
            (next scope w).2.now - w.now > config.SlowLogThreshold then 1 else 0) ∧
      (¬ (config.SlowLogThreshold > 0 ∧
            (next scope w).2.now - w.now > config.SlowLogThreshold) →
        own.filter Event.hasSlowTag = []) ∧
      (own.filter Event.isCounterInc).length = 1 ∧
      (own.filter Event.isOutcomeLog).length =
        if (next scope w).1.Error.isSome then 1 else 0 :=
  ⟨_, rfl, metricEvents_slowLogs ext dsn op config logger _ _,
    metricEvents_no_slowTag ext dsn op config logger _ _,
    by rw [metricEvents_counters]; rfl,
    metricEvents_outcomeLogs ext dsn op config logger _ _⟩

theorem metricInterceptor_slow_log_witness :
    ((metricInterceptor (exampleExt none none) "orders"
        { Addr := "127.0.0.1:3306", DBName := "orders" } "query" slowConfig { bound := [] }
        notFoundHandler (exampleScope none) emptyWorld).2.log.filter Event.isSlowLog).length = 1 ∧
    ((metricInterceptor (exampleExt none none) "orders"
        { Addr := "127.0.0.1:3306", DBName := "orders" } "query"
        { slowConfig with SlowLogThreshold := 0 } { bound := [] }
        notFoundHandler (exampleScope none) emptyWorld).2.log.filter Event.hasSlowTag) = [] := by
  obtain ⟨own, hlog, hslow, -, -, -⟩ :=
    metricInterceptor_slow_log (exampleExt none none) "orders"
      { Addr := "127.0.0.1:3306", DBName := "orders" } "query" slowConfig { bound := [] }
      notFoundHandler (exampleScope none) emptyWorld
  obtain ⟨own0, hlog0, -, hnone, -, -⟩ :=
    metricInterceptor_slow_log (exampleExt none none) "orders"
      { Addr := "127.0.0.1:3306", DBName := "orders" } "query"
      { slowConfig with SlowLogThreshold := 0 } { bound := [] }
      notFoundHandler (exampleScope none) emptyWorld
  refine ⟨?_, ?_⟩
  · rw [hlog]
    exact hslow.trans (by decide)
  · rw [hlog0]
    exact hnone (by decide)

/-! ## Frame of the three built-in interceptors -/

theorem World.emits_nil (w : World) : w.emits [] = w := by
  cases w
  simp [World.emits]

theorem World.emit_emits (w : World) (es : List Event) (e : Event) :
    (w.emits es).emit e = w.emits (es ++ [e]) := by
  simp [World.emits, World.emit]

theorem debugInterceptor_runsNextOnce (ext : Ext) (compName : String) (dsn : DSN)
    (op : String) (options : Config) (logger : Logger) (next : Handler) (scope : Scope)
    (w : World) :
    RunsNextOnce (debugInterceptor ext compName dsn op options logger next) next scope w := by
  unfold RunsNextOnce debugInterceptor
  by_cases hd : ext.IsDevelopmentMode = true
  · cases hE : (next scope w).1.Error with
    | none =>
        refine ⟨[], [Event.xdebugInfo compName (dsn.Addr ++ "/" ++ dsn.DBName)
          ((next scope w).2.now - w.now)
          (logSQL ext (next scope w).1.SQL (next scope w).1.SQLVars true)
          (ext.sprintV (next scope w).1.Value)], ?_⟩
        rw [World.emits_nil]
        simp only [hd, hE, if_true]
        rfl
    | some e =>
        refine ⟨[], [Event.xdebugError compName (dsn.Addr ++ "/" ++ dsn.DBName)
          ((next scope w).2.now - w.now)
          (logSQL ext (next scope w).1.SQL (next scope w).1.SQLVars true) e.Error], ?_⟩
        rw [World.emits_nil]
        simp only [hd, hE, if_true]
        rfl
  · exact ⟨[], [], by simp [hd, World.emits_nil]⟩

theorem metricInterceptor_runsNextOnce (ext : Ext) (compName : String) (dsn : DSN)
    (op : String) (config : Config) (logger : Logger) (next : Handler) (scope : Scope)
    (w : World) :
    RunsNextOnce (metricInterceptor ext compName dsn op config logger next) next scope w :=
  ⟨[], _, by rw [World.emits_nil]; rfl⟩

theorem traceInterceptor_runsNextOnce (ext : Ext) (compName : String) (dsn : DSN)
    (op : String) (options : Config) (logger : Logger) (next : Handler) (scope : Scope)
    (w : World) :
    RunsNextOnce (traceInterceptor ext compName dsn op options logger next) next scope w := by
  unfold RunsNextOnce traceInterceptor
  split
  · exact ⟨[_], _, by simp only [World.emit_emits]; rfl⟩
  · exact ⟨[], [], by simp [World.emits_nil]⟩

/-- C8: for each of the three built-in interceptors, every static identity,
every inner handler `next`, every scope and world, the wrapped handler is one
single application of `next` to the scope it was given (in a world that differs
from the caller's only by sink calls `pre` made beforehand, such as the start
of the span), followed only by further sink calls `post`; the scope it leaves,
and so its error, result value, statement text and bound parameters, is the
scope left by `next`. -/
theorem builtin_interceptors_run_next_once (ext : Ext) (compName : String) (dsn : DSN)
    (op : String) (config : Config) (logger : Logger) (next : Handler) (scope : Scope)
    (w : World) :
    ∀ h ∈ [debugInterceptor ext compName dsn op config logger next,
           metricInterceptor ext compName dsn op config logger next,
           traceInterceptor ext compName dsn op config logger next],
      ∃ pre post : List Event,
        h scope w = ((next scope (w.emits pre)).1, (next scope (w.emits pre)).2.emits post) ∧
        (h scope w).1.Error = (next scope (w.emits pre)).1.Error ∧
        (h scope w).1.Value = (next scope (w.emits pre)).1.Value ∧
        (h scope w).1.SQL = (next scope (w.emits pre)).1.SQL ∧
        (h scope w).1.SQLVars = (next scope (w.emits pre)).1.SQLVars := by
  intro h hh
  have key : RunsNextOnce h next scope w := by
    simp only [List.mem_cons, List.mem_singleton, List.mem_nil_iff, or_false] at hh
    rcases hh with rfl | rfl | rfl
    · exact debugInterceptor_runsNextOnce ext compName dsn op config logger next scope w
    · exact metricInterceptor_runsNextOnce ext compName dsn op config logger next scope w
    · exact traceInterceptor_runsNextOnce ext compName dsn op config logger next scope w
  obtain ⟨pre, post, heq⟩ := key
  exact ⟨pre, post, heq, by rw [heq], by rw [heq], by rw [heq], by rw [heq]⟩

theorem builtin_interceptors_run_next_once_witness :
    (traceInterceptor (exampleExt none none) "orders"
        { Addr := "127.0.0.1:3306", DBName := "orders" } "query" slowConfig { bound := [] }
        notFoundHandler contextScope emptyWorld).1.Error =
      some (GoError.wrap "find order" GoError.ErrRecordNotFound) := by
  obtain ⟨pre, post, -, hE, -⟩ :=
    builtin_interceptors_run_next_once (exampleExt none none) "orders"
      { Addr := "127.0.0.1:3306", DBName := "orders" } "query" slowConfig { bound := [] }
      notFoundHandler contextScope emptyWorld
      (traceInterceptor (exampleExt none none) "orders"
        { Addr := "127.0.0.1:3306", DBName := "orders" } "query" slowConfig { bound := [] }
        notFoundHandler)
      (by simp)
  exact hE

/-! ## Interceptor accumulation in `Build` -/

theorem applyOptions_eq (c : Container) (options : List ContainerOption) :
    applyOptions c options =
      (options ++ builtinOptions c.config).foldl (fun c option => option c) c := by
  unfold applyOptions builtinOptions enabledBuiltins
  cases c.config.Debug <;> cases c.config.EnableTraceInterceptor <;>
    cases c.config.EnableMetricInterceptor <;> simp

theorem WithInterceptor_eq (is : List Interceptor) (c : Container) :
    WithInterceptor is c = c.setInterceptors (some (c.interceptorList ++ is)) := by
  unfold WithInterceptor Container.setInterceptors Container.interceptorList
  cases h : c.config.interceptors <;> simp [h]

theorem foldl_WithInterceptor (xss : List (List Interceptor)) (c : Container) :
    ∃ is : Option (List Interceptor),
      (xss.map WithInterceptor).foldl (fun c option => option c) c = c.setInterceptors is ∧
      is.getD [] = c.interceptorList ++ xss.flatten := by
  induction xss generalizing c with
  | nil =>
      refine ⟨c.config.interceptors, ?_, ?_⟩
      · simp [Container.setInterceptors]
      · simp [Container.interceptorList]
  | cons xs xss ih =>
      obtain ⟨is, h1, h2⟩ := ih (WithInterceptor xs c)
      refine ⟨is, ?_, ?_⟩
      · simp only [List.map_cons, List.foldl_cons]
        rw [h1, WithInterceptor_eq]
        simp [Container.setInterceptors]
      · rw [h2, WithInterceptor_eq]
        simp [Container.setInterceptors, Container.interceptorList]

theorem applyOptions_WithInterceptor (c : Container) (xss : List (List Interceptor)) :
    ∃ is : Option (List Interceptor),
      applyOptions c (xss.map WithInterceptor) = c.setInterceptors is ∧
      is.getD [] = c.interceptorList ++ xss.flatten ++ enabledBuiltins c.config := by
  have hmap : xss.map WithInterceptor ++ builtinOptions c.config =
      (xss ++ (enabledBuiltins c.config).map (fun i => [i])).map WithInterceptor := by
    simp [builtinOptions, List.map_append, List.map_map, Function.comp_def]
  obtain ⟨is, h1, h2⟩ :=
    foldl_WithInterceptor (xss ++ (enabledBuiltins c.config).map (fun i => [i])) c
  refine ⟨is, ?_, ?_⟩
  · rw [applyOptions_eq, hmap, h1]
  · rw [h2, List.flatten_append, List.append_assoc]
    congr 2
    induction enabledBuiltins c.config with
    | nil => rfl
    | cons i is ih => simp [ih]

/-- What `Build` does to the container after the options have been applied:
only `dsnCfg` and the logger can change. -/
theorem Build_container (ext : Ext) (c : Container) (options : List ContainerOption)
    (w : World) :
    ∃ (d : Option DSN) (l : Logger),
      (Build ext c options w).2.1 =
        { config := { (applyOptions c options).config with dsnCfg := d }
          name := (applyOptions c options).name
          logger := l } := by
  unfold Build
  simp only
  split
  · exact ⟨_, _, rfl⟩
  · exact ⟨_, _, rfl⟩
  · simp only [withDSN]
    split
    · split
      · exact ⟨_, _, rfl⟩
      · exact ⟨_, _, rfl⟩
    · exact ⟨_, _, rfl⟩
    · split
      · exact ⟨_, _, rfl⟩
      · exact ⟨_, _, rfl⟩

theorem Build_interceptorList (ext : Ext) (c : Container) (xss : List (List Interceptor))
    (w : World) :
    (Build ext c (xss.map WithInterceptor) w).2.1.interceptorList =
        c.interceptorList ++ xss.flatten ++ enabledBuiltins c.config ∧
      enabledBuiltins (Build ext c (xss.map WithInterceptor) w).2.1.config =
        enabledBuiltins c.config := by
  obtain ⟨d, l, hb⟩ := Build_container ext c (xss.map WithInterceptor) w
  obtain ⟨is, ha, his⟩ := applyOptions_WithInterceptor c xss
  rw [hb, ha]
  exact ⟨his, rfl⟩

theorem enabledBuiltins_count (config : Config) (i : Interceptor)
    (hi : i ∈ enabledBuiltins config) : List.count i (enabledBuiltins config) = 1 := by
  unfold enabledBuiltins at hi ⊢
  generalize config.Debug = a at hi ⊢
  generalize config.EnableTraceInterceptor = b at hi ⊢
  generalize config.EnableMetricInterceptor = d at hi ⊢
  cases a <;> cases b <;> cases d <;> simp at hi <;>
    (rcases hi with rfl | rfl | rfl <;> decide)

/-- C2 (counterexample): on a container with an empty interceptor list and the
debug flag set, `Build` called with `WithInterceptor(custom 7)` leaves the list
`[custom 7, debug]`, the caller-supplied interceptor first, and not the list
`[debug, custom 7]` that puts the built-in interceptors first. -/
theorem Build_builtins_first_fails :
    debugContainer.interceptorList = [] ∧
    (Build (exampleExt none none) debugContainer
        ([[Interceptor.custom 7]].map WithInterceptor) emptyWorld).2.1.interceptorList =
      [Interceptor.custom 7, Interceptor.debug] ∧
    (Build (exampleExt none none) debugContainer
        ([[Interceptor.custom 7]].map WithInterceptor) emptyWorld).2.1.interceptorList ≠
      enabledBuiltins debugContainer.config ++ [[Interceptor.custom 7]].flatten := by
  decide

/-- C2 (amended): for every container whose interceptor list is initially
empty and every list of `WithInterceptor` options passed to `Build`, the
interceptor list held by the configuration after `Build` is the caller-supplied
interceptors in their given order, followed by the built-in interceptors in
flag order: debug (iff `Debug`), trace (iff `EnableTraceInterceptor`), metric
(iff `EnableMetricInterceptor`). -/
theorem Build_interceptor_order (ext : Ext) (c : Container) (xss : List (List Interceptor))
    (w : World) (hempty : c.interceptorList = []) :
    (Build ext c (xss.map WithInterceptor) w).2.1.interceptorList =
      xss.flatten ++
        ((if c.config.Debug then [Interceptor.debug] else []) ++
         (if c.config.EnableTraceInterceptor then [Interceptor.trace] else []) ++
         (if c.config.EnableMetricInterceptor then [Interceptor.metric] else [])) := by
  have h := (Build_interceptorList ext c xss w).1
  rw [hempty, List.nil_append] at h
  exact h

theorem Build_interceptor_order_witness :
    debugContainer.interceptorList = [] ∧
    (Build (exampleExt none none) debugContainer
        ([[Interceptor.custom 7]].map WithInterceptor) emptyWorld).2.1.interceptorList =
      [[Interceptor.custom 7]].flatten ++
        ((if debugContainer.config.Debug then [Interceptor.debug] else []) ++
         (if debugContainer.config.EnableTraceInterceptor then [Interceptor.trace] else []) ++
         (if debugContainer.config.EnableMetricInterceptor then [Interceptor.metric] else [])) :=
  ⟨by decide, Build_interceptor_order (exampleExt none none) debugContainer
    [[Interceptor.custom 7]] emptyWorld (by decide)⟩

/-- C10: two consecutive `Build` calls without options on a container with
interceptor list `L` and enabled built-ins `B` leave the list `L ++ B` after
the first call and `L ++ B ++ B` after the second; when at least one flag is
set the two lists differ, and each enabled built-in occurs twice in `B ++ B`
(two more times in the final list than in `L`). -/
theorem Build_twice_appends_builtins_twice (ext : Ext) (c : Container) (w : World) :
    (Build ext c [] w).2.1.interceptorList = c.interceptorList ++ enabledBuiltins c.config ∧
    (Build ext (Build ext c [] w).2.1 [] (Build ext c [] w).2.2).2.1.interceptorList =
      c.interceptorList ++ enabledBuiltins c.config ++ enabledBuiltins c.config ∧
    (enabledBuiltins c.config ≠ [] →
      (Build ext (Build ext c [] w).2.1 [] (Build ext c [] w).2.2).2.1.interceptorList ≠
        (Build ext c [] w).2.1.interceptorList) ∧
    (∀ i ∈ enabledBuiltins c.config,
      List.count i (enabledBuiltins c.config ++ enabledBuiltins c.config) = 2 ∧
      List.count i
          (Build ext (Build ext c [] w).2.1 [] (Build ext c [] w).2.2).2.1.interceptorList =
        List.count i c.interceptorList + 2) := by
  have h1 := Build_interceptorList ext c [] w
  have h2 := Build_interceptorList ext (Build ext c [] w).2.1 [] (Build ext c [] w).2.2
  simp only [List.map_nil, List.flatten_nil, List.append_nil] at h1 h2
  have e1 := h1.1
  have e2 := h2.1
  rw [h1.2, e1] at e2
  refine ⟨e1, e2, ?_, ?_⟩
  · intro hB heq
    rw [e1, e2] at heq
    have := List.append_cancel_left (heq.trans (List.append_nil _).symm)
    exact hB this
  · intro i hi
    have hc := enabledBuiltins_count c.config i hi
    rw [e2]
    constructor
    · rw [List.count_append, hc]
    · rw [List.count_append, List.count_append, hc]

theorem Build_twice_appends_builtins_twice_witness :
    (Build (exampleExt none none)
        (Build (exampleExt none none) debugMetricContainer [] emptyWorld).2.1 []
        (Build (exampleExt none none) debugMetricContainer [] emptyWorld).2.2).2.1.interceptorList =
      [Interceptor.debug, Interceptor.metric, Interceptor.debug, Interceptor.metric] ∧
    (Build (exampleExt none none)
        (Build (exampleExt none none) debugMetricContainer [] emptyWorld).2.1 []
        (Build (exampleExt none none) debugMetricContainer [] emptyWorld).2.2).2.1.interceptorList ≠
      (Build (exampleExt none none) debugMetricContainer [] emptyWorld).2.1.interceptorList :=
  ⟨by decide,
    (Build_twice_appends_builtins_twice (exampleExt none none) debugMetricContainer
      emptyWorld).2.2.1 (by decide)⟩

/-! ## The registry -/

theorem Load_Store_same (instances : List (String × Component)) (name : String)
    (component : Component) : Load (Store instances name component) name = some component := by
  simp [Load, Store, List.lookup_cons]

theorem Load_filter_ne (instances : List (String × Component)) (name key : String)
    (hne : key ≠ name) :
    Load (instances.filter (fun e => e.1 ≠ name)) key = Load instances key := by
  induction instances with
  | nil => rfl
  | cons e es ih =>
      obtain ⟨k, v⟩ := e
      unfold Load at ih ⊢
      by_cases hk : k = name
      · subst hk
        have hkey : (key == k) = false := by simpa using hne
        simpa [List.filter, List.lookup_cons, hkey] using ih
      · by_cases hkk : key = k
        · subst hkk
          simp [List.filter, List.lookup_cons, hk]
        · have hkey : (key == k) = false := by simpa using hkk
          simpa [List.filter, List.lookup_cons, hk, hkey] using ih

theorem Load_Store_other (instances : List (String × Component)) (name key : String)
    (component : Component) (hne : key ≠ name) :
    Load (Store instances name component) key = Load instances key := by
  have hkey : (key == name) = false := by simpa using hne
  have h := Load_filter_ne instances name key hne
  unfold Load at h ⊢
  unfold Store
  rw [List.lookup_cons, hkey]
  exact h

/-! ## Failure policy of `Build`

In the theorems below the conditions on the connection string, the policy and
the name are read from the container as the options leave it,
`applyOptions c options`, since an option may rewrite any field; `withDSN`
gives the arguments `newComponent` is called with. -/

theorem Build_open_failed_degrade (ext : Ext) (c : Container)
    (options : List ContainerOption) (w : World) (dsn : DSN) (component : Option Component)
    (err : GoError)
    (hparse : ext.ParseDSN (applyOptions c options).config.DSN = (some dsn, none))
    (hpolicy : (applyOptions c options).config.OnFail ≠ "panic")
    (hopen : ext.newComponent (withDSN (applyOptions c options) dsn).name
      (withDSN (applyOptions c options) dsn).config
      (withDSN (applyOptions c options) dsn).logger = (component, some err)) :
    Build ext c options w =
      (BuildResult.returned component, withDSN (applyOptions c options) dsn,
        w.emits [
          Event.log Level.info (applyOptions c options).logger "start mysql"
            [Field.addr dsn.Addr, Field.name dsn.DBName],
          Event.counterInc TypeGorm ((applyOptions c options).name ++ ".ping") dsn.Addr
            "open err",
          Event.log Level.error (withDSN (applyOptions c options) dsn).logger "open mysql"
            [Field.errKind "register err", Field.err err, Field.addr dsn.Addr,
              Field.valueAny (withDSN (applyOptions c options) dsn).config]]) := by
  have hp : ¬ (withDSN (applyOptions c options) dsn).config.OnFail = "panic" := hpolicy
  unfold Build
  simp only [hparse, hopen, hp, if_false]
  simp [World.emit, World.emits, withDSN]

theorem Build_open_failed_panic (ext : Ext) (c : Container)
    (options : List ContainerOption) (w : World) (dsn : DSN) (component : Option Component)
    (err : GoError)
    (hparse : ext.ParseDSN (applyOptions c options).config.DSN = (some dsn, none))
    (hpolicy : (applyOptions c options).config.OnFail = "panic")
    (hopen : ext.newComponent (withDSN (applyOptions c options) dsn).name
      (withDSN (applyOptions c options) dsn).config
      (withDSN (applyOptions c options) dsn).logger = (component, some err)) :
    Build ext c options w =
      (BuildResult.panicked "open mysql", withDSN (applyOptions c options) dsn,
        w.emits [
          Event.log Level.info (applyOptions c options).logger "start mysql"
            [Field.addr dsn.Addr, Field.name dsn.DBName],
          Event.log Level.panic (withDSN (applyOptions c options) dsn).logger "open mysql"
            [Field.errKind "register err", Field.err err, Field.addr dsn.Addr,
              Field.valueAny (withDSN (applyOptions c options) dsn).config]]) := by
  have hp : (withDSN (applyOptions c options) dsn).config.OnFail = "panic" := hpolicy
  unfold Build
  simp only [hparse, hopen, hp, if_true]
  simp [World.emit, World.emits]

theorem Build_ping_failed (ext : Ext) (c : Container)
    (options : List ContainerOption) (w : World) (dsn : DSN) (component : Component)
    (err : GoError)
    (hparse : ext.ParseDSN (applyOptions c options).config.DSN = (some dsn, none))
    (hopen : ext.newComponent (withDSN (applyOptions c options) dsn).name
      (withDSN (applyOptions c options) dsn).config
      (withDSN (applyOptions c options) dsn).logger = (some component, none))
    (hping : ext.Ping component = some err) :
    Build ext c options w =
      (BuildResult.panicked "ping mysql", withDSN (applyOptions c options) dsn,
        w.emits [
          Event.log Level.info (applyOptions c options).logger "start mysql"
            [Field.addr dsn.Addr, Field.name dsn.DBName],
          Event.ping component,
          Event.log Level.panic (withDSN (applyOptions c options) dsn).logger "ping mysql"
            [Field.errKind "register err", Field.err err,
              Field.valueAny (withDSN (applyOptions c options) dsn).config]]) := by
  unfold Build
  simp only [hparse, hopen, hping]
  simp [World.emit, World.emits]

theorem Build_success (ext : Ext) (c : Container)
    (options : List ContainerOption) (w : World) (dsn : DSN) (component : Component)
    (hparse : ext.ParseDSN (applyOptions c options).config.DSN = (some dsn, none))
    (hopen : ext.newComponent (withDSN (applyOptions c options) dsn).name
      (withDSN (applyOptions c options) dsn).config
      (withDSN (applyOptions c options) dsn).logger = (some component, none))
    (hping : ext.Ping component = none) :
    Build ext c options w =
      (BuildResult.returned (some component), withDSN (applyOptions c options) dsn,
        { w.emits [
            Event.log Level.info (applyOptions c options).logger "start mysql"
              [Field.addr dsn.Addr, Field.name dsn.DBName],
            Event.ping component] with
          instances := Store w.instances (applyOptions c options).name component }) := by
  unfold Build
  simp only [hparse, hopen, hping]
  simp [World.emit, World.emits, withDSN]

/-- C5: when the connection string parses, the on-failure policy is `degrade`
and `newComponent` fails, `Build` does not panic: it returns the component
`newComponent` returned; the sink calls it adds contain exactly one counter
increment, the one labelled `open err`, and no liveness check; the registry is
unchanged. -/
theorem Build_degrade_returns_failed_component (ext : Ext) (c : Container)
    (options : List ContainerOption) (w : World) (dsn : DSN) (component : Option Component)
    (err : GoError)
    (hparse : ext.ParseDSN (applyOptions c options).config.DSN = (some dsn, none))
    (hpolicy : (applyOptions c options).config.OnFail = "degrade")
    (hopen : ext.newComponent (withDSN (applyOptions c options) dsn).name
      (withDSN (applyOptions c options) dsn).config
      (withDSN (applyOptions c options) dsn).logger = (component, some err)) :
    (Build ext c options w).1 = BuildResult.returned component ∧
    (Build ext c options w).2.2.instances = w.instances ∧
    ∃ own : List Event,
      (Build ext c options w).2.2.log = w.log ++ own ∧
      own.filter Event.isCounterInc =
        [Event.counterInc TypeGorm ((applyOptions c options).name ++ ".ping") dsn.Addr
          "open err"] ∧
      own.filter Event.isPing = [] := by
  have hp : (applyOptions c options).config.OnFail ≠ "panic" := by
    rw [hpolicy]
    decide
  rw [Build_open_failed_degrade ext c options w dsn component err hparse hp hopen]
  exact ⟨rfl, rfl, _, rfl, rfl, rfl⟩

theorem Build_degrade_returns_failed_component_witness :
    (Build (exampleExt (some (GoError.other "dial tcp: connection refused")) none)
        (exampleContainer (exampleConfig "degrade")) [] emptyWorld).1 =
      BuildResult.returned (some { name := "orders", db := 1 }) ∧
    (Build (exampleExt (some (GoError.other "dial tcp: connection refused")) none)
        (exampleContainer (exampleConfig "degrade")) [] emptyWorld).2.2.instances = [] :=
  ⟨(Build_degrade_returns_failed_component
      (exampleExt (some (GoError.other "dial tcp: connection refused")) none)
      (exampleContainer (exampleConfig "degrade")) [] emptyWorld
      { Addr := "127.0.0.1:3306", DBName := "orders" } (some { name := "orders", db := 1 })
      (GoError.other "dial tcp: connection refused") (by decide) (by decide) (by decide)).1,
    (Build_degrade_returns_failed_component
      (exampleExt (some (GoError.other "dial tcp: connection refused")) none)
      (exampleContainer (exampleConfig "degrade")) [] emptyWorld
      { Addr := "127.0.0.1:3306", DBName := "orders" } (some { name := "orders", db := 1 })
      (GoError.other "dial tcp: connection refused") (by decide) (by decide) (by decide)).2.1⟩

/-- C6: when the connection string parses, the on-failure policy is `panic`
and `newComponent` fails, `Build` panics: no component is returned; the sink
calls it adds contain no counter increment and no liveness check; the registry
is unchanged. -/
theorem Build_panic_policy_aborts (ext : Ext) (c : Container)
    (options : List ContainerOption) (w : World) (dsn : DSN) (component : Option Component)
    (err : GoError)
    (hparse : ext.ParseDSN (applyOptions c options).config.DSN = (some dsn, none))
    (hpolicy : (applyOptions c options).config.OnFail = "panic")
    (hopen : ext.newComponent (withDSN (applyOptions c options) dsn).name
      (withDSN (applyOptions c options) dsn).config
      (withDSN (applyOptions c options) dsn).logger = (component, some err)) :
    (Build ext c options w).1 = BuildResult.panicked "open mysql" ∧
    (∀ returned : Option Component,
      (Build ext c options w).1 ≠ BuildResult.returned returned) ∧
    (Build ext c options w).2.2.instances = w.instances ∧
    ∃ own : List Event,
      (Build ext c options w).2.2.log = w.log ++ own ∧
      own.filter Event.isCounterInc = [] ∧
      own.filter Event.isPing = [] := by
  rw [Build_open_failed_panic ext c options w dsn component err hparse hpolicy hopen]
  exact ⟨rfl, fun _ h => BuildResult.noConfusion h, rfl, _, rfl, rfl, rfl⟩

theorem Build_panic_policy_aborts_witness :
    (Build (exampleExt (some (GoError.other "dial tcp: connection refused")) none)
        (exampleContainer (exampleConfig "panic")) [] emptyWorld).1 =
      BuildResult.panicked "open mysql" :=
  (Build_panic_policy_aborts
    (exampleExt (some (GoError.other "dial tcp: connection refused")) none)
    (exampleContainer (exampleConfig "panic")) [] emptyWorld
    { Addr := "127.0.0.1:3306", DBName := "orders" } (some { name := "orders", db := 1 })
    (GoError.other "dial tcp: connection refused") (by decide) (by decide) (by decide)).1

/-- C7: whatever the on-failure policy, when the connection string parses,
`newComponent` succeeds and the liveness check `Ping` fails, `Build` panics:
no component is returned and the registry is unchanged. -/
theorem Build_ping_failure_always_aborts (ext : Ext) (c : Container)
    (options : List ContainerOption) (w : World) (dsn : DSN) (component : Component)
    (err : GoError)
    (hparse : ext.ParseDSN (applyOptions c options).config.DSN = (some dsn, none))
    (hopen : ext.newComponent (withDSN (applyOptions c options) dsn).name
      (withDSN (applyOptions c options) dsn).config
      (withDSN (applyOptions c options) dsn).logger = (some component, none))
    (hping : ext.Ping component = some err) :
    (Build ext c options w).1 = BuildResult.panicked "ping mysql" ∧
    (∀ returned : Option Component,
      (Build ext c options w).1 ≠ BuildResult.returned returned) ∧
    (Build ext c options w).2.2.instances = w.instances := by
  rw [Build_ping_failed ext c options w dsn component err hparse hopen hping]
  exact ⟨rfl, fun _ h => BuildResult.noConfusion h, rfl⟩

theorem Build_ping_failure_always_aborts_witness :
    (Build (exampleExt none (some (GoError.other "bad connection")))
        (exampleContainer (exampleConfig "degrade")) [] emptyWorld).1 =
      BuildResult.panicked "ping mysql" ∧
    (Build (exampleExt none (some (GoError.other "bad connection")))
        (exampleContainer (exampleConfig "degrade")) [] emptyWorld).2.2.instances = [] :=
  ⟨(Build_ping_failure_always_aborts (exampleExt none (some (GoError.other "bad connection")))
      (exampleContainer (exampleConfig "degrade")) [] emptyWorld
      { Addr := "127.0.0.1:3306", DBName := "orders" } { name := "orders", db := 1 }
      (GoError.other "bad connection") (by decide) (by decide) (by decide)).1,
    (Build_ping_failure_always_aborts (exampleExt none (some (GoError.other "bad connection")))
      (exampleContainer (exampleConfig "degrade")) [] emptyWorld
      { Addr := "127.0.0.1:3306", DBName := "orders" } { name := "orders", db := 1 }
      (GoError.other "bad connection") (by decide) (by decide) (by decide)).2.2⟩

/-- C9: when the connection string parses, `newComponent` succeeds and the
liveness check succeeds, `Build` returns the component `newComponent` produced,
a lookup of the container's name in the registry afterwards yields that same
component whatever the registry held before, and the lookup of every other
name is unchanged. -/
theorem Build_success_registers_component (ext : Ext) (c : Container)
    (options : List ContainerOption) (w : World) (dsn : DSN) (component : Component)
    (hparse : ext.ParseDSN (applyOptions c options).config.DSN = (some dsn, none))
    (hopen : ext.newComponent (withDSN (applyOptions c options) dsn).name
      (withDSN (applyOptions c options) dsn).config
      (withDSN (applyOptions c options) dsn).logger = (some component, none))
    (hping : ext.Ping component = none) :
    (Build ext c options w).1 = BuildResult.returned (some component) ∧
    Load (Build ext c options w).2.2.instances (applyOptions c options).name =
      some component ∧
    ∀ key : String, key ≠ (applyOptions c options).name →
      Load (Build ext c options w).2.2.instances key = Load w.instances key := by
  rw [Build_success ext c options w dsn component hparse hopen hping]
  exact ⟨rfl, Load_Store_same _ _ _, fun key hne => Load_Store_other _ _ _ _ hne⟩

theorem Build_success_registers_component_witness :
    Load registeredWorld.instances "orders" = some { name := "orders", db := 9 } ∧
    (Build (exampleExt none none) (exampleContainer (exampleConfig "panic")) []
        registeredWorld).1 = BuildResult.returned (some { name := "orders", db := 1 }) ∧
    Load (Build (exampleExt none none) (exampleContainer (exampleConfig "panic")) []
        registeredWorld).2.2.instances "orders" = some { name := "orders", db := 1 } ∧
    Load (Build (exampleExt none none) (exampleContainer (exampleConfig "panic")) []
        registeredWorld).2.2.instances "users" = some { name := "users", db := 8 } :=
  ⟨by decide,
    (Build_success_registers_component (exampleExt none none)
      (exampleContainer (exampleConfig "panic")) [] registeredWorld
      { Addr := "127.0.0.1:3306", DBName := "orders" } { name := "orders", db := 1 }
      (by decide) (by decide) (by decide)).1,
    (Build_success_registers_component (exampleExt none none)
      (exampleContainer (exampleConfig "panic")) [] registeredWorld
      { Addr := "127.0.0.1:3306", DBName := "orders" } { name := "orders", db := 1 }
      (by decide) (by decide) (by decide)).2.1,
    ((Build_success_registers_component (exampleExt none none)
      (exampleContainer (exampleConfig "panic")) [] registeredWorld
      { Addr := "127.0.0.1:3306", DBName := "orders" } { name := "orders", db := 1 }
      (by decide) (by decide) (by decide)).2.2 "users" (by decide)).trans (by decide)⟩

end Egorm
